import Mathlib

/-!
Shallow embedding of `src/library/src/main/c/pngs.c` from the
`bitmapdecoder` repository, together with theorems settling the
specification claims about it.

Machine integers are modelled as `Nat`.  All `uint32_t` computations in
the premultiplier stay below `2^32` (proved where it matters), so no
explicit wrap is inserted there; the two places in `decode` where a
`uint32_t` product can genuinely wrap (the capacity check and the buffer
sizes) carry an explicit `% 2^32`.
-/

namespace Pngs

/-- `2^32`, the modulus of `uint32_t` arithmetic. -/
def U32 : Nat := 2 ^ 32

/-! ### Option and flag constants (the `#define`s of pngs.c) -/

def OPTION_DECODE_AS_MASK : Nat := 0x4
def OPTION_EXTRACT_MASK : Nat := 0x8

def FLAG_U8_MASK : Nat := 0x2
def FLAG_GREY : Nat := 0x4
def FLAG_OPAQUE : Nat := 0x8

/-! ### The premultiplier (`abgr_nonpremul_to_argb_premul`) -/

/-- Embedding of `abgr_nonpremul_to_argb_premul` (pngs.c lines 44-56).
All intermediate `uint32_t` values stay below `2^32` for any `x < 2^32`
(the largest product is `255 * (255 * 0x10201) = 0xFFFE0001`), so the C
arithmetic is exactly `Nat` arithmetic here. -/
def abgr_nonpremul_to_argb_premul (argb_nonpremul : Nat) : Nat :=
  let a := 0xFF &&& (argb_nonpremul >>> 24)
  let a16 := a * (0x101 * 0x101)
  let r := 0xFF &&& (argb_nonpremul >>> 16)
  let r2 := ((r * a16) / 0xFFFF) >>> 8
  let g := 0xFF &&& (argb_nonpremul >>> 8)
  let g2 := ((g * a16) / 0xFFFF) >>> 8
  let b := 0xFF &&& (argb_nonpremul >>> 0)
  let b2 := ((b * a16) / 0xFFFF) >>> 8
  (a <<< 24) ||| (b2 <<< 16) ||| (g2 <<< 8) ||| (r2 <<< 0)

/-- Modelled from the spec's words (claim C2): the same premultiplication
shape, but with the fixed-point scale the spec states, `a16 = a * 0x10101`.
Used only to compare against the code's computation. -/
def premulSpecFormula (argb_nonpremul : Nat) : Nat :=
  let a := 0xFF &&& (argb_nonpremul >>> 24)
  let a16 := a * 0x10101
  let r := 0xFF &&& (argb_nonpremul >>> 16)
  let r2 := ((r * a16) / 0xFFFF) >>> 8
  let g := 0xFF &&& (argb_nonpremul >>> 8)
  let g2 := ((g * a16) / 0xFFFF) >>> 8
  let b := 0xFF &&& (argb_nonpremul >>> 0)
  let b2 := ((b * a16) / 0xFFFF) >>> 8
  (a <<< 24) ||| (b2 <<< 16) ||| (g2 <<< 8) ||| (r2 <<< 0)

/-- One channel of the code's premultiplication: `((c * (a * 0x10201)) / 0xFFFF) >> 8`. -/
def premulChannel (c a : Nat) : Nat :=
  ((c * (a * (0x101 * 0x101))) / 0xFFFF) >>> 8

/-- Alpha byte of a 32-bit color. -/
def alphaByte (color : Nat) : Nat := 0xFF &&& (color >>> 24)

/-- The byte of a 32-bit color at shift `s`. -/
def channelByte (color s : Nat) : Nat := 0xFF &&& (color >>> s)

/-! ### The palette converter (`copyPalette`) -/

/-- Embedding of `copyPalette` (pngs.c lines 58-73), over the palette as a
list of `uint32_t` entries.  Returns the converted (premultiplied) table
and the `is_opaque` flag: `is_opaque` starts at `1` and is cleared by any
entry whose alpha byte is not `0xFF`. -/
def copyPalette : List Nat → List Nat × Bool
  | [] => ([], true)
  | abgr :: rest =>
    let alpha := 0xFF &&& (abgr >>> 24)
    let tail := copyPalette rest
    (abgr_nonpremul_to_argb_premul abgr :: tail.1,
      (alpha == 0xFF) && tail.2)

/-! ### The mask extractors -/

/-- Embedding of `extract_mask` (pngs.c lines 75-82): for each pixel index
byte, write the alpha byte of its palette entry. -/
def extract_mask (palette : List Nat) : List Nat → List Nat
  | [] => []
  | v :: rest =>
    let color := palette.getD v 0
    let alpha := 0xFF &&& (color >>> 24)
    alpha :: extract_mask palette rest

/-- Embedding of `convert_to_mask` (pngs.c lines 84-100).  `none` models
`return 0` (the tint check failed; the partially written destination is
then fully overwritten by the caller's fallback copy), `some out` models
`return 1` with `out` the bytes written.  `hue` is the accumulator,
initially `0` at the call site. -/
def convert_to_mask (palette : List Nat) : List Nat → Nat → Option (List Nat)
  | [], _ => some []
  | v :: rest, hue =>
    let color := palette.getD v 0
    let alpha := 0xFF &&& (color >>> 24)
    if alpha ≠ 0 then
      if hue ≠ 0 ∧ (hue &&& 0x00FFFFFF) ≠ (color &&& 0x00FFFFFF) then none
      else (convert_to_mask palette rest color).map (alpha :: ·)
    else (convert_to_mask palette rest hue).map (alpha :: ·)

/-! ### The decode orchestrator (`Java_org_bitmapdecoder_PngDecoder_decode`)

The wuffs decoding engine is an opaque collaborator: each of its calls
either succeeds or fails, and on success it produces data (image config,
palette, pixel plane) this code consumes.  An `Engine` value records one
run's worth of engine behaviour, so `decode` becomes a pure function of
the call arguments and the engine's behaviour, mirroring pngs.c line by
line. -/

/-- The pixel formats the code distinguishes (`source_format.repr`
compared against the three greyscale wuffs constants; everything else is
treated uniformly by pngs.c). -/
inductive PixelFormat
  | Y
  | Y16LE
  | Y16BE
  | Indexed8
  | Other
deriving DecidableEq, Repr

/-- The test at pngs.c lines 175-177: is the native format one of the
three greyscale variants? -/
def greyVariant : PixelFormat → Bool
  | PixelFormat.Y => true
  | PixelFormat.Y16LE => true
  | PixelFormat.Y16BE => true
  | _ => false

/-- One call's worth of behaviour of the environment (JNI buffer lookup,
the wuffs engine, the allocator): every success/failure the C code
branches on, plus the data produced by the engine. -/
structure Engine where
  /-- `GetDirectBufferAddress` returned non-NULL (pngs.c line 112). -/
  bufferValid : Bool
  /-- `wuffs_png__decoder__initialize` status ok (line 122). -/
  initOk : Bool
  /-- `decode_image_config` status ok (line 142). -/
  configOk : Bool
  /-- `image_config__is_valid` (line 148). -/
  configValid : Bool
  /-- `pixel_config__width`, a `uint32_t`. -/
  imgWidth : Nat
  /-- `pixel_config__height`, a `uint32_t`. -/
  imgHeight : Nat
  /-- The native pixel format of the image. -/
  sourceFormat : PixelFormat
  /-- `bitmap_info.width`, a `uint32_t`. -/
  capWidth : Nat
  /-- `bitmap_info.height`, a `uint32_t`. -/
  capHeight : Nat
  /-- `AndroidBitmap_lockPixels` yields a non-NULL pointer (line 185). -/
  lockOk : Bool
  /-- `calloc` succeeds (line 195). -/
  allocOk : Bool
  /-- `pixel_buffer__set_from_slice` status ok (line 207). -/
  sliceOk : Bool
  /-- `malloc` of the work buffer succeeds (line 215). -/
  workbufOk : Bool
  /-- `decode_frame` status ok (line 223). -/
  frameOk : Bool
  /-- The 256 `uint32_t` palette entries of `pixel_buffer__palette`. -/
  palette : List Nat
  /-- The decoded indexed plane (one byte per pixel) on the transient
  buffer path. -/
  pixels : List Nat
  /-- The bytes the engine decodes directly into the locked surface on
  the direct-to-surface path. -/
  directPixels : List Nat

/-- Which `return` statement of pngs.c a call exits through. -/
inductive ExitSite
  | nullBuffer
  | initFail
  | configFail
  | configInvalid
  | capacityFail
  | noPalette
  | allocFail
  | sliceFail
  | workbufFail
  | frameFail
  | success
deriving DecidableEq, Repr

/-- Observable outcome of one `decode` call. -/
structure DecodeResult where
  /-- The `jint` returned to Java. -/
  result : Int
  /-- Which return statement fired. -/
  exit : ExitSite
  /-- The (possibly normalized) target pixel format, once format
  selection has happened. -/
  target : Option PixelFormat
  /-- `dst_len`, the byte size of the destination of `decode_frame`. -/
  dstLen : Nat
  /-- A transient pixel buffer (`separate_buffer`) was allocated. -/
  pixelBufAllocated : Bool
  /-- The work buffer was allocated. -/
  workBufAllocated : Bool
  /-- `decode_frame` was invoked. -/
  frameAttempted : Bool
  /-- `free(workbuff.ptr)` ran before returning. -/
  freedWorkBuf : Bool
  /-- `free(dst_buffer)` ran before returning. -/
  freedPixelBuf : Bool
  /-- Bytes this code committed to the destination surface
  (`none` = the code wrote nothing to it). -/
  surface : Option (List Nat)
  /-- Entries written through the caller's palette sink. -/
  paletteOut : Option (List Nat)
deriving DecidableEq, Repr

/-- A failure outcome: `return 0` at `site`, with the given
allocation/attempt footprint and nothing committed or freed. -/
def failAt (site : ExitSite) (target : Option PixelFormat) (dstLen : Nat)
    (pixelAlloc workAlloc frameAtt : Bool) : DecodeResult :=
  { result := 0
    exit := site
    target := target
    dstLen := dstLen
    pixelBufAllocated := pixelAlloc
    workBufAllocated := workAlloc
    frameAttempted := frameAtt
    freedWorkBuf := false
    freedPixelBuf := false
    surface := none
    paletteOut := none }

/-- Embedding of pngs.c lines 204-286: everything after format selection
and destination-buffer acquisition.  `target` is the (possibly
normalized) pixel config format, `dstLen` the chosen buffer size,
`separate` whether `dst_buffer` is the transient `separate_buffer`
(else it is the locked surface). -/
def decodePost (e : Engine) (outPalette : Bool) (options : Nat)
    (target : PixelFormat) (dstLen : Nat) (separate : Bool) : DecodeResult :=
  if e.sliceOk = false then
    failAt ExitSite.sliceFail (some target) dstLen separate false false
  else if e.workbufOk = false then
    failAt ExitSite.workbufFail (some target) dstLen separate false false
  else if e.frameOk = false then
    -- line 226: `return 0` with neither the work buffer nor the
    -- transient pixel buffer freed
    failAt ExitSite.frameFail (some target) dstLen separate true true
  else
    -- lines 231-286: free the work buffer, build the result flags,
    -- write back
    let greyHit := target = PixelFormat.Y
    let cp := copyPalette e.palette
    let base : Nat :=
      if greyHit then 1 ||| FLAG_GREY ||| FLAG_OPAQUE
      else if outPalette ∧ cp.2 = true then 1 ||| FLAG_OPAQUE
      else 1
    let isOpaque : Bool := if greyHit then true else (if outPalette then cp.2 else false)
    let palOut : Option (List Nat) :=
      if greyHit = false ∧ outPalette then some cp.1 else none
    if separate = false then
      -- line 256: decoded directly into the bitmap; unlock it
      { result := (base : Int)
        exit := ExitSite.success
        target := some target
        dstLen := dstLen
        pixelBufAllocated := false
        workBufAllocated := true
        frameAttempted := true
        freedWorkBuf := true
        freedPixelBuf := false
        surface := some e.directPixels
        paletteOut := palOut }
    else
      -- lines 259-284: mask dispatch, copy out, free the transient buffer
      let written : List Nat × Bool :=
        if options &&& OPTION_EXTRACT_MASK ≠ 0 then
          (extract_mask e.palette e.pixels, true)
        else if isOpaque = false ∧ options &&& OPTION_DECODE_AS_MASK ≠ 0 then
          match convert_to_mask e.palette e.pixels 0 with
          | some out => (out, true)
          | none => (e.pixels, false)
        else (e.pixels, false)
      { result := ((if written.2 then base ||| FLAG_U8_MASK else base : Nat) : Int)
        exit := ExitSite.success
        target := some target
        dstLen := dstLen
        pixelBufAllocated := true
        workBufAllocated := true
        frameAttempted := true
        freedWorkBuf := true
        freedPixelBuf := true
        surface := some written.1
        paletteOut := palOut }

/-- Embedding of `Java_org_bitmapdecoder_PngDecoder_decode`
(pngs.c lines 102-286), parametrized by the environment's behaviour.
`outPalette` is whether the caller supplied a palette sink
(`out_palette != NULL`); `options` is the options bitset. -/
def decode (e : Engine) (outPalette : Bool) (options : Nat) : DecodeResult :=
  if e.bufferValid = false then
    failAt ExitSite.nullBuffer none 0 false false false
  else if e.initOk = false then
    failAt ExitSite.initFail none 0 false false false
  else if e.configOk = false then
    failAt ExitSite.configFail none 0 false false false
  else if e.configValid = false then
    failAt ExitSite.configInvalid none 0 false false false
  else if (e.imgWidth * e.imgHeight) % U32 > (e.capWidth * e.capHeight) % U32 then
    -- line 162: both products are `uint32_t` multiplications
    failAt ExitSite.capacityFail none 0 false false false
  else if greyVariant e.sourceFormat = true then
    -- lines 175-185: normalize the config to 8-bit grey, lock the surface
    let dstLen := (e.imgWidth * e.imgHeight) % U32
    if e.lockOk = false then
      failAt ExitSite.allocFail (some PixelFormat.Y) dstLen false false false
    else decodePost e outPalette options PixelFormat.Y dstLen false
  else if outPalette = false then
    -- line 186: no palette sink supplied for a non-greyscale image
    failAt ExitSite.noPalette none 0 false false false
  else
    -- lines 192-196: transient indexed buffer of `width*height + 256*4`
    let dstLen := ((e.imgWidth * e.imgHeight) % U32 + 256 * 4) % U32
    if e.allocOk = false then
      failAt ExitSite.allocFail (some e.sourceFormat) dstLen false false false
    else decodePost e outPalette options e.sourceFormat dstLen true

/-- Result flag test: is flag `f` set in the returned `jint`? -/
def hasFlag (d : DecodeResult) (f : Nat) : Prop :=
  d.result.toNat &&& f ≠ 0

instance (d : DecodeResult) (f : Nat) : Decidable (hasFlag d f) := by
  unfold hasFlag; infer_instance

/-! ### Predicates used to state the claims -/

/-- The palette colors of the pixels of `src` whose alpha byte is
non-zero (the "visible" pixels). -/
def visibleColors (palette src : List Nat) : List Nat :=
  (src.map (fun v => palette.getD v 0)).filter (fun c => (0xFF &&& (c >>> 24)) != 0)

/-- All visible pixels of `src` share the same 24-bit color channels. -/
def sameHue (palette src : List Nat) : Prop :=
  ∀ c1 ∈ visibleColors palette src, ∀ c2 ∈ visibleColors palette src,
    c1 &&& 0x00FFFFFF = c2 &&& 0x00FFFFFF

instance (palette src : List Nat) : Decidable (sameHue palette src) := by
  unfold sameHue; infer_instance

/-! ### Concrete palettes and engine behaviours for witnesses and
counterexamples -/

/-- A 256-entry palette whose visible entries share one hue and differ
only in alpha. -/
def palUniform : List Nat :=
  0xFF445566 :: 0x80445566 :: List.replicate 254 0

/-- A 256-entry palette with two visible entries of different hues. -/
def palMultiHue : List Nat :=
  0xFFAA0000 :: 0xFF00BB00 :: List.replicate 254 0

/-- A fully opaque 256-entry palette. -/
def palOpaque : List Nat := List.replicate 256 0xFF123456

/-- A 256-entry palette with exactly one entry at alpha `0xFE` and all
others at alpha `0xFF`. -/
def palOneFE : List Nat := 0xFE112233 :: List.replicate 255 0xFF112233

/-- A baseline all-success environment: a 2×2 indexed image decoded into
a 2×2 surface. -/
def baseEngine : Engine :=
  { bufferValid := true
    initOk := true
    configOk := true
    configValid := true
    imgWidth := 2
    imgHeight := 2
    sourceFormat := PixelFormat.Indexed8
    capWidth := 2
    capHeight := 2
    lockOk := true
    allocOk := true
    sliceOk := true
    workbufOk := true
    frameOk := true
    palette := palUniform
    pixels := [0, 1, 0, 1]
    directPixels := [7, 7, 7, 7] }

/-- Non-greyscale image, used with no palette sink (claim C1). -/
def engineC1 : Engine := baseEngine

/-- Tint-check failure environment: multi-hue palette (claim C3). -/
def engineC3 : Engine := { baseEngine with palette := palMultiHue }

/-- All-success indexed environment (claim C4). -/
def engineC4 : Engine := baseEngine

/-- Greyscale image whose 32-bit pixel-count product wraps to `0`
(claims C6 and C10): a `65536×65536` image against a `1×1` surface. -/
def engineC6 : Engine :=
  { baseEngine with
    sourceFormat := PixelFormat.Y
    imgWidth := 65536
    imgHeight := 65536
    capWidth := 1
    capHeight := 1 }

/-- Frame-decode failure on the transient-buffer path (claim C7). -/
def engineC7 : Engine := { baseEngine with frameOk := false }

/-- Engine-initialization failure (claim C8). -/
def engineC8 : Engine := { baseEngine with initOk := false }

/-- All-success greyscale environment (claim C9). -/
def engineC9 : Engine := { baseEngine with sourceFormat := PixelFormat.Y }

/-- Same wrap-around environment as `engineC6`, for claim C10. -/
def engineC10 : Engine := engineC6

/-- The spec's capacity-mismatch example: a 100×100 image against a
50×50 surface (no 32-bit overflow involved). -/
def engineCap : Engine :=
  { baseEngine with
    imgWidth := 100
    imgHeight := 100
    capWidth := 50
    capHeight := 50 }

/-- Modelled from the spec: the engine's buffer-attach step
(`wuffs_base__pixel_buffer__set_from_slice`, vendored outside `src/`)
succeeds only if the attached buffer can hold the configured image's
pixel data (the spec sizes the buffers as `width*height` and
`width*height + 256*4` bytes, sections 3 and 4.2).  Both buffer sizes
this code computes are 32-bit products (pngs.c lines 183 and 193), so
when `width*height ≥ 2^32` the attached buffer is necessarily shorter
than the image and the attach step cannot succeed.  `engineRealizable`
records that necessary condition on an engine behaviour. -/
def engineRealizable (e : Engine) : Prop :=
  e.sliceOk = true → e.imgWidth * e.imgHeight < U32

/-- The realizable engine behaviour at the wrap-around input of
`engineC6`: the buffer-attach step fails, because the wrapped `dst_len`
is `0` while the `65536×65536` config needs `2^32` bytes. -/
def engineC6r : Engine := { engineC6 with sliceOk := false }

/-! ## Helper lemmas -/

/-- The converted table returned by `copyPalette` is the entry-wise
premultiplication of the input table. -/
theorem copyPalette_fst (pal : List Nat) :
    (copyPalette pal).1 = pal.map abgr_nonpremul_to_argb_premul := by
  induction pal with
  | nil => rfl
  | cons c rest ih => simp [copyPalette, ih]

/-- The `is_opaque` flag returned by `copyPalette` is true exactly when
every entry's alpha byte is `0xFF`. -/
theorem copyPalette_snd (pal : List Nat) :
    (copyPalette pal).2 = true ↔ ∀ c ∈ pal, 0xFF &&& (c >>> 24) = 0xFF := by
  induction pal with
  | nil => simp [copyPalette]
  | cons c rest ih =>
    simp only [copyPalette, List.mem_cons, Bool.and_eq_true, beq_iff_eq, ih]
    constructor
    · rintro ⟨h1, h2⟩ x (rfl | hx)
      · exact h1
      · exact h2 x hx
    · intro h
      exact ⟨h c (Or.inl rfl), fun x hx => h x (Or.inr hx)⟩

/-- A color with a non-zero alpha byte is itself non-zero. -/
theorem color_ne_zero_of_alpha {c : Nat} (h : 0xFF &&& (c >>> 24) ≠ 0) : c ≠ 0 := by
  rintro rfl
  exact h rfl

/-- `extract_mask` writes, for each pixel, the alpha byte of that
pixel's palette entry. -/
theorem extract_mask_eq_map (palette src : List Nat) :
    extract_mask palette src = src.map (fun v => 0xFF &&& (palette.getD v 0 >>> 24)) := by
  induction src with
  | nil => rfl
  | cons v rest ih => simp [extract_mask, ih]

/-- `visibleColors` over a pixel whose palette alpha is zero skips it. -/
theorem visibleColors_cons_zero (palette : List Nat) (v : Nat) (rest : List Nat)
    (h : 0xFF &&& (palette.getD v 0 >>> 24) = 0) :
    visibleColors palette (v :: rest) = visibleColors palette rest := by
  have h' : (0xFF &&& palette[v]?.getD 0 >>> 24) = 0 := by
    simpa [List.getD] using h
  simp [visibleColors, h']

/-- `visibleColors` over a pixel whose palette alpha is non-zero keeps
its color. -/
theorem visibleColors_cons_ne (palette : List Nat) (v : Nat) (rest : List Nat)
    (h : 0xFF &&& (palette.getD v 0 >>> 24) ≠ 0) :
    visibleColors palette (v :: rest) =
      palette.getD v 0 :: visibleColors palette rest := by
  have h' : ¬(0xFF &&& palette[v]?.getD 0 >>> 24) = 0 := by
    simpa [List.getD] using h
  simp [visibleColors, List.getD, h']

/-- With a non-zero running hue, `convert_to_mask` succeeds exactly when
every remaining visible color matches the hue's 24-bit channels. -/
theorem convert_isSome_of_hue (palette : List Nat) (src : List Nat) :
    ∀ hue : Nat, hue ≠ 0 →
      ((convert_to_mask palette src hue).isSome = true ↔
        ∀ c ∈ visibleColors palette src, c &&& 0x00FFFFFF = hue &&& 0x00FFFFFF) := by
  induction src with
  | nil =>
    intro hue _
    simp [convert_to_mask, visibleColors]
  | cons v rest ih =>
    intro hue hhue
    by_cases halpha : (0xFF &&& (palette.getD v 0 >>> 24)) = 0
    · rw [visibleColors_cons_zero palette v rest halpha]
      simp only [convert_to_mask]
      rw [if_neg (not_not_intro halpha)]
      simp only [Option.isSome_map']
      exact ih hue hhue
    · have hcol : palette.getD v 0 ≠ 0 := color_ne_zero_of_alpha halpha
      rw [visibleColors_cons_ne palette v rest halpha]
      by_cases hhue2 : (hue &&& 0x00FFFFFF) = (palette.getD v 0 &&& 0x00FFFFFF)
      · simp only [convert_to_mask]
        rw [if_pos halpha, if_neg (by intro h; exact h.2 hhue2)]
        simp only [Option.isSome_map']
        rw [ih (palette.getD v 0) hcol]
        simp only [List.forall_mem_cons]
        constructor
        · intro h
          exact ⟨hhue2.symm, fun c hc => (h c hc).trans hhue2.symm⟩
        · intro h c hc
          exact (h.2 c hc).trans hhue2
      · simp only [convert_to_mask]
        rw [if_pos halpha, if_pos ⟨hhue, hhue2⟩]
        simp only [Option.isSome_none, Bool.false_eq_true, false_iff,
          List.forall_mem_cons]
        intro hcontra
        exact hhue2 hcontra.1.symm

/-- From the initial hue accumulator `0`, `convert_to_mask` succeeds
exactly when all visible pixels share one 24-bit hue. -/
theorem convert_isSome_zero (palette src : List Nat) :
    (convert_to_mask palette src 0).isSome = true ↔ sameHue palette src := by
  induction src with
  | nil =>
    simp [convert_to_mask, sameHue, visibleColors]
  | cons v rest ih =>
    by_cases halpha : (0xFF &&& (palette.getD v 0 >>> 24)) = 0
    · unfold sameHue
      rw [visibleColors_cons_zero palette v rest halpha]
      simp only [convert_to_mask]
      rw [if_neg (not_not_intro halpha)]
      simp only [Option.isSome_map']
      exact ih
    · have hcol : palette.getD v 0 ≠ 0 := color_ne_zero_of_alpha halpha
      unfold sameHue
      rw [visibleColors_cons_ne palette v rest halpha]
      simp only [convert_to_mask]
      rw [if_pos halpha, if_neg (by intro h; exact h.1 rfl)]
      simp only [Option.isSome_map']
      rw [convert_isSome_of_hue palette rest (palette.getD v 0) hcol]
      simp only [List.forall_mem_cons]
      constructor
      · intro h
        refine ⟨⟨trivial, fun c hc => (h c hc).symm⟩, fun c1 hc1 => ⟨h c1 hc1, ?_⟩⟩
        intro c2 hc2
        exact (h c1 hc1).trans (h c2 hc2).symm
      · intro h c hc
        exact (h.2 c hc).1

/-- On success, the bytes written by `convert_to_mask` are exactly the
bytes `extract_mask` would write: each pixel's palette alpha. -/
theorem convert_eq_extract (palette : List Nat) (src : List Nat) :
    ∀ hue out, convert_to_mask palette src hue = some out →
      out = extract_mask palette src := by
  induction src with
  | nil =>
    intro hue out h
    simp only [convert_to_mask, Option.some.injEq] at h
    rw [← h]
    rfl
  | cons v rest ih =>
    intro hue out h
    simp only [convert_to_mask] at h
    by_cases halpha : (0xFF &&& (palette.getD v 0 >>> 24)) = 0
    · rw [if_neg (not_not_intro halpha)] at h
      rcases Option.map_eq_some'.mp h with ⟨o, ho, hout⟩
      rw [← hout, ih hue o ho]
      simp [extract_mask]
    · rw [if_pos halpha] at h
      by_cases hcond : hue ≠ 0 ∧ (hue &&& 0x00FFFFFF) ≠ (palette.getD v 0 &&& 0x00FFFFFF)
      · rw [if_pos hcond] at h
        exact absurd h (by simp)
      · rw [if_neg hcond] at h
        rcases Option.map_eq_some'.mp h with ⟨o, ho, hout⟩
        rw [← hout, ih (palette.getD v 0) o ho]
        simp [extract_mask]

/-- With all checks up to format selection passing, a non-greyscale
image with a palette sink reaches `decodePost` on the transient-buffer
path. -/
theorem decode_indexed_path (e : Engine) (options : Nat)
    (h1 : e.bufferValid = true) (h2 : e.initOk = true) (h3 : e.configOk = true)
    (h4 : e.configValid = true)
    (hcap : (e.imgWidth * e.imgHeight) % U32 ≤ (e.capWidth * e.capHeight) % U32)
    (hfmt : greyVariant e.sourceFormat = false)
    (halloc : e.allocOk = true) :
    decode e true options =
      decodePost e true options e.sourceFormat
        (((e.imgWidth * e.imgHeight) % U32 + 256 * 4) % U32) true := by
  have hcap' : ¬((e.capWidth * e.capHeight) % U32 < (e.imgWidth * e.imgHeight) % U32) :=
    Nat.not_lt.mpr hcap
  simp [decode, h1, h2, h3, h4, hfmt, halloc, hcap']

/-- With all checks up to format selection passing, a greyscale image
reaches `decodePost` on the direct-to-surface path with the config
normalized to 8-bit grey. -/
theorem decode_grey_path (e : Engine) (outPalette : Bool) (options : Nat)
    (h1 : e.bufferValid = true) (h2 : e.initOk = true) (h3 : e.configOk = true)
    (h4 : e.configValid = true)
    (hcap : (e.imgWidth * e.imgHeight) % U32 ≤ (e.capWidth * e.capHeight) % U32)
    (hfmt : greyVariant e.sourceFormat = true)
    (hlock : e.lockOk = true) :
    decode e outPalette options =
      decodePost e outPalette options PixelFormat.Y
        ((e.imgWidth * e.imgHeight) % U32) false := by
  have hcap' : ¬((e.capWidth * e.capHeight) % U32 < (e.imgWidth * e.imgHeight) % U32) :=
    Nat.not_lt.mpr hcap
  simp [decode, h1, h2, h3, h4, hfmt, hlock, hcap']



/-! ## Claim C3: tint-checked extraction -/

/-- Claim C3: tint-checked extraction succeeds iff all pixels whose
palette entry has non-zero alpha share identical 24-bit color channels;
on success every written byte is the pixel's palette alpha; and when the
check fails on the indexed path the orchestrator falls back to a plain
copy of the indexed plane with `U8_MASK` unset. -/
theorem C3_tint_checked_extraction :
    (∀ palette src : List Nat, palette.length = 256 → (∀ v ∈ src, v < 256) →
      (((convert_to_mask palette src 0).isSome = true) ↔ sameHue palette src) ∧
      (∀ out, convert_to_mask palette src 0 = some out →
        out = src.map (fun v => 0xFF &&& (palette.getD v 0 >>> 24)))) ∧
    (∀ (e : Engine) (options : Nat),
      e.bufferValid = true → e.initOk = true → e.configOk = true →
      e.configValid = true →
      (e.imgWidth * e.imgHeight) % U32 ≤ (e.capWidth * e.capHeight) % U32 →
      e.sourceFormat = PixelFormat.Indexed8 →
      e.allocOk = true → e.sliceOk = true → e.workbufOk = true → e.frameOk = true →
      options &&& OPTION_EXTRACT_MASK = 0 →
      (copyPalette e.palette).2 = false →
      options &&& OPTION_DECODE_AS_MASK ≠ 0 →
      convert_to_mask e.palette e.pixels 0 = none →
      (decode e true options).surface = some e.pixels ∧
        ¬ hasFlag (decode e true options) FLAG_U8_MASK) := by
  constructor
  · intro palette src _ _
    refine ⟨convert_isSome_zero palette src, ?_⟩
    intro out h
    rw [convert_eq_extract palette src 0 out h]
    exact extract_mask_eq_map palette src
  · intro e options h1 h2 h3 h4 hcap hfmt halloc hs hw hf hx0 hcp hdm hconv
    rw [decode_indexed_path e options h1 h2 h3 h4 hcap (by rw [hfmt]; rfl) halloc]
    rw [hfmt]
    constructor
    · simp [decodePost, hs, hw, hf, hx0, hcp, hdm, hconv]
    · simp [decodePost, hasFlag, hs, hw, hf, hx0, hcp, hdm, hconv, FLAG_U8_MASK]

set_option maxRecDepth 4000 in
/-- Witness for `C3_tint_checked_extraction`: a uniform-hue palette
succeeds, and a multi-hue engine run falls back to the plain copy. -/
theorem C3_tint_checked_extraction_witness :
    (((convert_to_mask palUniform [0, 1, 0, 1] 0).isSome = true ↔
        sameHue palUniform [0, 1, 0, 1]) ∧
      (∀ out, convert_to_mask palUniform [0, 1, 0, 1] 0 = some out →
        out = [0, 1, 0, 1].map (fun v => 0xFF &&& (palUniform.getD v 0 >>> 24)))) ∧
    ((decode engineC3 true OPTION_DECODE_AS_MASK).surface = some engineC3.pixels ∧
      ¬ hasFlag (decode engineC3 true OPTION_DECODE_AS_MASK) FLAG_U8_MASK) :=
  ⟨C3_tint_checked_extraction.1 palUniform [0, 1, 0, 1] (by simp [palUniform])
      (by decide),
   C3_tint_checked_extraction.2 engineC3 OPTION_DECODE_AS_MASK
      (by decide) (by decide) (by decide) (by decide) (by decide) (by decide)
      (by decide) (by decide) (by decide) (by decide) (by decide)
      (by decide) (by decide) (by decide)⟩

/-! ## Claim C4: mask-mode dispatch -/

/-- Claim C4: on the indexed-with-palette path, `EXTRACT_MASK` forces
unconditional extraction and `U8_MASK` regardless of palette contents;
otherwise with `DECODE_AS_MASK` set and an unopaque palette the tint
check decides `U8_MASK` and the output; in every remaining case a plain
copy is written with `U8_MASK` unset. -/
theorem C4_mask_dispatch :
    ∀ (e : Engine) (options : Nat),
      e.bufferValid = true → e.initOk = true → e.configOk = true →
      e.configValid = true →
      (e.imgWidth * e.imgHeight) % U32 ≤ (e.capWidth * e.capHeight) % U32 →
      e.sourceFormat = PixelFormat.Indexed8 →
      e.allocOk = true → e.sliceOk = true → e.workbufOk = true → e.frameOk = true →
      ((options &&& OPTION_EXTRACT_MASK ≠ 0 →
        (decode e true options).surface = some (extract_mask e.palette e.pixels) ∧
        hasFlag (decode e true options) FLAG_U8_MASK) ∧
       (options &&& OPTION_EXTRACT_MASK = 0 →
        (copyPalette e.palette).2 = false →
        options &&& OPTION_DECODE_AS_MASK ≠ 0 →
        ((hasFlag (decode e true options) FLAG_U8_MASK ↔
          (convert_to_mask e.palette e.pixels 0).isSome = true) ∧
         (∀ out, convert_to_mask e.palette e.pixels 0 = some out →
            (decode e true options).surface = some out) ∧
         (convert_to_mask e.palette e.pixels 0 = none →
            (decode e true options).surface = some e.pixels))) ∧
       (options &&& OPTION_EXTRACT_MASK = 0 →
        (options &&& OPTION_DECODE_AS_MASK = 0 ∨ (copyPalette e.palette).2 = true) →
        (decode e true options).surface = some e.pixels ∧
        ¬ hasFlag (decode e true options) FLAG_U8_MASK)) := by
  intro e options h1 h2 h3 h4 hcap hfmt halloc hs hw hf
  rw [decode_indexed_path e options h1 h2 h3 h4 hcap (by rw [hfmt]; rfl) halloc]
  rw [hfmt]
  refine ⟨?_, ?_, ?_⟩
  · intro hx
    constructor
    · simp [decodePost, hs, hw, hf, hx]
    · cases hcp : (copyPalette e.palette).2 <;>
        simp [decodePost, hasFlag, hs, hw, hf, hx, hcp, FLAG_OPAQUE, FLAG_U8_MASK]
  · intro hx0 hcp hdm
    rcases hcv : convert_to_mask e.palette e.pixels 0 with _ | out
    · refine ⟨?_, ?_, ?_⟩
      · simp [decodePost, hasFlag, hs, hw, hf, hx0, hcp, hdm, hcv, FLAG_U8_MASK]
      · intro o ho
        cases ho
      · intro _
        simp [decodePost, hs, hw, hf, hx0, hcp, hdm, hcv]
    · refine ⟨?_, ?_, ?_⟩
      · simp [decodePost, hasFlag, hs, hw, hf, hx0, hcp, hdm, hcv, FLAG_OPAQUE,
          FLAG_U8_MASK]
      · intro o ho
        injection ho with ho
        subst ho
        simp [decodePost, hs, hw, hf, hx0, hcp, hdm, hcv]
      · intro hnone
        cases hnone
  · intro hx0 hrest
    rcases hrest with hdm | hop
    · constructor
      · simp [decodePost, hs, hw, hf, hx0, hdm]
      · cases hcp : (copyPalette e.palette).2 <;>
          simp [decodePost, hasFlag, hs, hw, hf, hx0, hdm, hcp, FLAG_OPAQUE,
            FLAG_U8_MASK] <;> decide
    · constructor
      · simp [decodePost, hs, hw, hf, hx0, hop]
      · simp [decodePost, hasFlag, hs, hw, hf, hx0, hop, FLAG_OPAQUE,
          FLAG_U8_MASK] <;> decide

/-- Witness for `C4_mask_dispatch`: forcing `EXTRACT_MASK` on a concrete
all-success indexed run extracts the mask and sets `U8_MASK`. -/
theorem C4_mask_dispatch_witness :
    (decode engineC4 true OPTION_EXTRACT_MASK).surface =
      some (extract_mask engineC4.palette engineC4.pixels) ∧
    hasFlag (decode engineC4 true OPTION_EXTRACT_MASK) FLAG_U8_MASK :=
  (C4_mask_dispatch engineC4 OPTION_EXTRACT_MASK
      (by decide) (by decide) (by decide) (by decide) (by decide) (by decide)
      (by decide) (by decide) (by decide) (by decide)).1 (by decide)

/-! ## Claim C1: the no-palette-sink path -/

/-- Claim C1, counterexample: decoding a non-greyscale (indexed) image
with no palette sink supplied is rejected with result `0`, no output
written, and no decode work done — the call does not normalize to RGBA
and does not produce 4 bytes per pixel. -/
theorem C1_counterexample :
    (decode engineC1 false 0).result = 0 ∧
    (decode engineC1 false 0).surface = none ∧
    (decode engineC1 false 0).frameAttempted = false ∧
    (decode engineC1 false 0).exit = ExitSite.noPalette := by
  decide

/-- Claim C1 (amended: when the image's native format is not a greyscale
variant and no palette sink is supplied, the call is rejected: it
returns `0` before any decode work, writing no output, instead of
normalizing the target format to RGBA). -/
theorem C1_no_palette_rejected :
    ∀ (e : Engine) (options : Nat),
      e.bufferValid = true → e.initOk = true → e.configOk = true →
      e.configValid = true →
      (e.imgWidth * e.imgHeight) % U32 ≤ (e.capWidth * e.capHeight) % U32 →
      greyVariant e.sourceFormat = false →
      decode e false options =
        failAt ExitSite.noPalette none 0 false false false := by
  intro e options h1 h2 h3 h4 hcap hfmt
  have hcap' : ¬((e.capWidth * e.capHeight) % U32 < (e.imgWidth * e.imgHeight) % U32) :=
    Nat.not_lt.mpr hcap
  simp [decode, h1, h2, h3, h4, hfmt, hcap']

/-- Witness for `C1_no_palette_rejected` at a concrete indexed engine. -/
theorem C1_no_palette_rejected_witness :
    decode engineC1 false 0 = failAt ExitSite.noPalette none 0 false false false :=
  C1_no_palette_rejected engineC1 0 (by decide) (by decide) (by decide) (by decide)
    (by decide) (by decide)

/-! ## Claim C7: transient buffers on failure paths -/

/-- Claim C7 is false of the code: when the engine's frame-decode step
fails on the transient-buffer path, `decode` returns `0` with the work
buffer and the transient pixel buffer both allocated and neither freed
(pngs.c line 226 returns without the `free` calls). -/
theorem C7_frame_failure_leak :
    (decode engineC7 true 0).exit = ExitSite.frameFail ∧
    (decode engineC7 true 0).result = 0 ∧
    (decode engineC7 true 0).frameAttempted = true ∧
    (decode engineC7 true 0).workBufAllocated = true ∧
    (decode engineC7 true 0).freedWorkBuf = false ∧
    (decode engineC7 true 0).pixelBufAllocated = true ∧
    (decode engineC7 true 0).freedPixelBuf = false := by
  decide

/-! ## Claims C8, C9, C10: result codes, the greyscale path, the
capacity comparison -/

/-- Every `decodePost` call either fails with result `0` or succeeds
with one of the six flag-combination values. -/
theorem decodePost_result_values (e : Engine) (op : Bool) (options : Nat)
    (target : PixelFormat) (dstLen : Nat) (separate : Bool) :
    ((decodePost e op options target dstLen separate).exit ≠ ExitSite.success ∧
      (decodePost e op options target dstLen separate).result = 0) ∨
    ((decodePost e op options target dstLen separate).exit = ExitSite.success ∧
      ((decodePost e op options target dstLen separate).result = 1 ∨
       (decodePost e op options target dstLen separate).result = 3 ∨
       (decodePost e op options target dstLen separate).result = 9 ∨
       (decodePost e op options target dstLen separate).result = 11 ∨
       (decodePost e op options target dstLen separate).result = 13 ∨
       (decodePost e op options target dstLen separate).result = 15)) := by
  cases hs : e.sliceOk
  case false => exact Or.inl (by simp [decodePost, hs, failAt])
  case true =>
    cases hw : e.workbufOk
    case false => exact Or.inl (by simp [decodePost, hs, hw, failAt])
    case true =>
      cases hf : e.frameOk
      case false => exact Or.inl (by simp [decodePost, hs, hw, hf, failAt])
      case true =>
        refine Or.inr ⟨?_, ?_⟩
        · by_cases hsep : separate = false <;> simp [decodePost, hs, hw, hf, hsep]
        · by_cases hgt : target = PixelFormat.Y <;>
            by_cases hsep : separate = false <;>
            rcases hcv : convert_to_mask e.palette e.pixels 0 with _ | out <;>
            cases hcp : (copyPalette e.palette).2 <;>
            cases hop2 : op <;>
            by_cases hx : options &&& OPTION_EXTRACT_MASK = 0 <;>
            by_cases hdm : options &&& OPTION_DECODE_AS_MASK = 0 <;>
            simp [decodePost, hs, hw, hf, hgt, hsep, hcv, hcp, hx, hdm,
              FLAG_GREY, FLAG_OPAQUE, FLAG_U8_MASK]

/-- Every `decode` call either fails with result `0` or succeeds with
one of the six flag-combination values. -/
theorem decode_result_values (e : Engine) (op : Bool) (options : Nat) :
    ((decode e op options).exit ≠ ExitSite.success ∧
      (decode e op options).result = 0) ∨
    ((decode e op options).exit = ExitSite.success ∧
      ((decode e op options).result = 1 ∨ (decode e op options).result = 3 ∨
       (decode e op options).result = 9 ∨ (decode e op options).result = 11 ∨
       (decode e op options).result = 13 ∨ (decode e op options).result = 15)) := by
  cases h1 : e.bufferValid
  case false => exact Or.inl (by simp [decode, h1, failAt])
  case true =>
  cases h2 : e.initOk
  case false => exact Or.inl (by simp [decode, h1, h2, failAt])
  case true =>
  cases h3 : e.configOk
  case false => exact Or.inl (by simp [decode, h1, h2, h3, failAt])
  case true =>
  cases h4 : e.configValid
  case false => exact Or.inl (by simp [decode, h1, h2, h3, h4, failAt])
  case true =>
  by_cases hcap : (e.capWidth * e.capHeight) % U32 < (e.imgWidth * e.imgHeight) % U32
  · exact Or.inl (by simp [decode, h1, h2, h3, h4, hcap, failAt])
  · have hcap' : (e.imgWidth * e.imgHeight) % U32 ≤ (e.capWidth * e.capHeight) % U32 :=
      Nat.not_lt.mp hcap
    cases h5 : greyVariant e.sourceFormat
    · cases hop : op
      · exact Or.inl (by simp [decode, h1, h2, h3, h4, hcap, h5, failAt])
      · cases h6 : e.allocOk
        · exact Or.inl (by simp [decode, h1, h2, h3, h4, hcap, h5, h6, failAt])
        · rw [decode_indexed_path e options h1 h2 h3 h4 hcap' h5 h6]
          exact decodePost_result_values e true options e.sourceFormat _ true
    · cases h6 : e.lockOk
      · exact Or.inl (by simp [decode, h1, h2, h3, h4, hcap, h5, h6, failAt])
      · rw [decode_grey_path e op options h1 h2 h3 h4 hcap' h5 h6]
        exact decodePost_result_values e op options PixelFormat.Y _ false

/-- No `decodePost` outcome is the capacity rejection. -/
theorem decodePost_exit_ne_capacity (e : Engine) (op : Bool) (options : Nat)
    (target : PixelFormat) (dstLen : Nat) (separate : Bool) :
    (decodePost e op options target dstLen separate).exit ≠
      ExitSite.capacityFail := by
  cases hs : e.sliceOk
  case false => simp [decodePost, hs, failAt]
  case true =>
    cases hw : e.workbufOk
    case false => simp [decodePost, hs, hw, failAt]
    case true =>
      cases hf : e.frameOk
      case false => simp [decodePost, hs, hw, hf, failAt]
      case true =>
        by_cases hsep : separate = false <;> simp [decodePost, hs, hw, hf, hsep]

/-- Under a passing capacity comparison, no exit is the capacity
rejection. -/
theorem decode_exit_ne_capacity (e : Engine) (op : Bool) (options : Nat)
    (hcap : (e.imgWidth * e.imgHeight) % U32 ≤ (e.capWidth * e.capHeight) % U32) :
    (decode e op options).exit ≠ ExitSite.capacityFail := by
  have hcaplt : ¬((e.capWidth * e.capHeight) % U32 < (e.imgWidth * e.imgHeight) % U32) :=
    Nat.not_lt.mpr hcap
  cases h1 : e.bufferValid
  case false => simp [decode, h1, failAt]
  case true =>
  cases h2 : e.initOk
  case false => simp [decode, h1, h2, failAt]
  case true =>
  cases h3 : e.configOk
  case false => simp [decode, h1, h2, h3, failAt]
  case true =>
  cases h4 : e.configValid
  case false => simp [decode, h1, h2, h3, h4, failAt]
  case true =>
  cases h5 : greyVariant e.sourceFormat
  case true =>
    cases h6 : e.lockOk
    case false => simp [decode, h1, h2, h3, h4, hcaplt, h5, h6, failAt]
    case true =>
      rw [decode_grey_path e op options h1 h2 h3 h4 hcap h5 h6]
      exact decodePost_exit_ne_capacity e op options PixelFormat.Y _ false
  case false =>
    cases hop : op
    case false => simp [decode, h1, h2, h3, h4, hcaplt, h5, failAt]
    case true =>
      cases h6 : e.allocOk
      case false => simp [decode, h1, h2, h3, h4, hcaplt, h5, h6, failAt]
      case true =>
        rw [decode_indexed_path e options h1 h2 h3 h4 hcap h5 h6]
        exact decodePost_exit_ne_capacity e true options e.sourceFormat _ true

/-- A failing capacity comparison rejects the call with nothing done. -/
theorem decode_capacity_rejects (e : Engine) (op : Bool) (options : Nat)
    (h1 : e.bufferValid = true) (h2 : e.initOk = true) (h3 : e.configOk = true)
    (h4 : e.configValid = true)
    (hcap : (e.capWidth * e.capHeight) % U32 < (e.imgWidth * e.imgHeight) % U32) :
    decode e op options = failAt ExitSite.capacityFail none 0 false false false := by
  simp [decode, h1, h2, h3, h4, hcap]

/-- When the buffer-attach step fails, every path of `decode` returns
`0` with no surface write and no frame decode. -/
theorem decode_fails_without_slice (e : Engine) (op : Bool) (options : Nat)
    (hs : e.sliceOk = false) :
    (decode e op options).result = 0 ∧ (decode e op options).surface = none ∧
    (decode e op options).frameAttempted = false := by
  cases h1 : e.bufferValid
  case false => simp [decode, h1, failAt]
  case true =>
  cases h2 : e.initOk
  case false => simp [decode, h1, h2, failAt]
  case true =>
  cases h3 : e.configOk
  case false => simp [decode, h1, h2, h3, failAt]
  case true =>
  cases h4 : e.configValid
  case false => simp [decode, h1, h2, h3, h4, failAt]
  case true =>
  by_cases hcap : (e.capWidth * e.capHeight) % U32 < (e.imgWidth * e.imgHeight) % U32
  · simp [decode, h1, h2, h3, h4, hcap, failAt]
  · have hcap' : (e.imgWidth * e.imgHeight) % U32 ≤ (e.capWidth * e.capHeight) % U32 :=
      Nat.not_lt.mp hcap
    cases h5 : greyVariant e.sourceFormat
    · cases hop : op
      · simp [decode, h1, h2, h3, h4, hcap, h5, failAt]
      · cases h6 : e.allocOk
        · simp [decode, h1, h2, h3, h4, hcap, h5, h6, failAt]
        · rw [decode_indexed_path e options h1 h2 h3 h4 hcap' h5 h6]
          simp [decodePost, hs, failAt]
    · cases h6 : e.lockOk
      · simp [decode, h1, h2, h3, h4, hcap, h5, h6, failAt]
      · rw [decode_grey_path e op options h1 h2 h3 h4 hcap' h5 h6]
        simp [decodePost, hs, failAt]

/-! ## Claim C6: the capacity check -/

/-- Claim C6, counterexample: a `65536×65536` image against a `1×1`
surface has a true pixel count (`2^32`) far above the capacity, yet the
call is not rejected at the capacity check: both products are 32-bit
multiplications, `65536 * 65536` wraps to `0`, and `0 > 1` fails, so
the call proceeds past the check — through format selection (the config
is normalized to `Y`, pngs.c line 179) and the surface-lock acquisition
(line 185) — and only then fails, at the buffer-attach step (line 211),
whose failure (`sliceOk = false`) is the engine's only realizable
behaviour here since the wrapped `dst_len` of `0` cannot hold the
image.  Decode work has thus begun before the failure returns,
contradicting "returns the failure result before any decode work
begins". -/
theorem C6_counterexample :
    engineC6r.imgWidth * engineC6r.imgHeight >
      engineC6r.capWidth * engineC6r.capHeight ∧
    engineC6r.sliceOk = false ∧
    (decode engineC6r false 0).exit ≠ ExitSite.capacityFail ∧
    (decode engineC6r false 0).exit = ExitSite.sliceFail ∧
    (decode engineC6r false 0).target = some PixelFormat.Y ∧
    (decode engineC6r false 0).result = 0 := by
  decide

/-- Claim C6 (amended: the capacity comparison is computed on 32-bit
wrap-around products, so the rejection at the check — failure result
`0` with nothing allocated, no decode work and no surface mutation —
happens exactly when `width*height mod 2^32` exceeds
`capWidth*capHeight mod 2^32`.  A call whose true pixel count exceeds
the capacity but whose wrapped products pass the comparison is instead
rejected only later: for every engine behaviour realizable at such
sizes, the call still returns the failure result `0` with no frame
decode and no surface mutation, but only after format selection and
destination-buffer acquisition have taken place). -/
theorem C6_capacity_check :
    (∀ (e : Engine) (op : Bool) (options : Nat),
      e.bufferValid = true → e.initOk = true → e.configOk = true →
      e.configValid = true →
      (e.capWidth * e.capHeight) % U32 < (e.imgWidth * e.imgHeight) % U32 →
      decode e op options = failAt ExitSite.capacityFail none 0 false false false) ∧
    (∀ (e : Engine) (op : Bool) (options : Nat),
      (e.imgWidth * e.imgHeight) % U32 ≤ (e.capWidth * e.capHeight) % U32 →
      (decode e op options).exit ≠ ExitSite.capacityFail) ∧
    (∀ (e : Engine) (op : Bool) (options : Nat),
      engineRealizable e →
      e.bufferValid = true → e.initOk = true → e.configOk = true →
      e.configValid = true →
      e.capWidth * e.capHeight < e.imgWidth * e.imgHeight →
      (decode e op options).result = 0 ∧
      (decode e op options).surface = none ∧
      (decode e op options).frameAttempted = false) := by
  refine ⟨decode_capacity_rejects, decode_exit_ne_capacity, ?_⟩
  intro e op options hreal h1 h2 h3 h4 hlt
  by_cases hP : e.imgWidth * e.imgHeight < U32
  · have hcap : (e.capWidth * e.capHeight) % U32 < (e.imgWidth * e.imgHeight) % U32 := by
      rw [Nat.mod_eq_of_lt hP]
      exact lt_of_le_of_lt (Nat.mod_le _ _) hlt
    rw [decode_capacity_rejects e op options h1 h2 h3 h4 hcap]
    simp [failAt]
  · have hso : e.sliceOk = false := by
      cases hsl : e.sliceOk
      · rfl
      · exact absurd (hreal hsl) hP
    exact decode_fails_without_slice e op options hso

/-- Witness for `C6_capacity_check`: the spec's 100×100-into-50×50 run
is rejected at the check with nothing done, and the realizable
wrap-around run still returns `0` with no frame decode and no surface
write. -/
theorem C6_capacity_check_witness :
    (decode engineCap true 0 =
      failAt ExitSite.capacityFail none 0 false false false) ∧
    ((decode engineC6r false 0).result = 0 ∧
      (decode engineC6r false 0).surface = none ∧
      (decode engineC6r false 0).frameAttempted = false) :=
  ⟨C6_capacity_check.1 engineCap true 0 (by decide) (by decide) (by decide)
      (by decide) (by decide),
   C6_capacity_check.2.2 engineC6r false 0 (fun h => absurd h (by decide))
      (by decide) (by decide) (by decide) (by decide) (by decide)⟩

/-- Claim C8, counterexample: when the engine cannot be initialized the
call returns `0` — the same generic failure value, not a distinct
negative result. -/
theorem C8_counterexample :
    (decode engineC8 true 0).exit = ExitSite.initFail ∧
    (decode engineC8 true 0).result = 0 ∧
    ¬((decode engineC8 true 0).result < 0) := by
  decide

/-- Claim C8 (amended: the result code distinguishes only two outcomes:
`0` for every failure — content, header, allocation, and also
engine-initialization failure, which is not a distinct negative value —
and for success a positive value whose low bits are the flags
`U8_MASK`, `GREY`, `OPAQUE` above the always-set success bit; the
result is never negative). -/
theorem C8_result_code :
    (∀ (e : Engine) (op : Bool) (options : Nat),
      ((decode e op options).exit ≠ ExitSite.success →
        (decode e op options).result = 0) ∧
      0 ≤ (decode e op options).result ∧
      ((decode e op options).exit = ExitSite.success →
        0 < (decode e op options).result ∧
        (decode e op options).result.toNat &&& 0x1 = 1 ∧
        (decode e op options).result.toNat &&&
            (0x1 ||| FLAG_U8_MASK ||| FLAG_GREY ||| FLAG_OPAQUE) =
          (decode e op options).result.toNat)) ∧
    (∀ (e : Engine) (op : Bool) (options : Nat),
      e.bufferValid = true → e.initOk = false →
      (decode e op options).result = 0 ∧
      (decode e op options).exit = ExitSite.initFail) := by
  constructor
  · intro e op options
    rcases decode_result_values e op options with ⟨hne, h0⟩ | ⟨hsucc, hval⟩
    · exact ⟨fun _ => h0, by rw [h0], fun hs => absurd hs hne⟩
    · refine ⟨fun hne => absurd hsucc hne, ?_, fun _ => ?_⟩ <;>
        rcases hval with h | h | h | h | h | h <;> rw [h] <;> decide
  · intro e op options h1 h2
    constructor <;> simp [decode, h1, h2, failAt]

/-- Witness for `C8_result_code`: the engine-init-failure run returns
`0`, and an all-success run returns a positive flag value. -/
theorem C8_result_code_witness :
    ((decode engineC8 true 0).result = 0 ∧
      (decode engineC8 true 0).exit = ExitSite.initFail) ∧
    ((decode engineC8 true 0).exit ≠ ExitSite.success →
      (decode engineC8 true 0).result = 0) :=
  ⟨C8_result_code.2 engineC8 true 0 (by decide) (by decide),
   (C8_result_code.1 engineC8 true 0).1⟩

/-- Claim C9: on the all-success greyscale path (any of the three
greyscale variants, and a non-overflowing pixel count) the target format
is normalized to 8-bit grey, the image is decoded directly into the
destination surface with `width*height` output bytes, and the result
carries both `GREY` and `OPAQUE`. -/
theorem C9_greyscale_path :
    ∀ (e : Engine) (op : Bool) (options : Nat),
      e.bufferValid = true → e.initOk = true → e.configOk = true →
      e.configValid = true →
      (e.imgWidth * e.imgHeight) % U32 ≤ (e.capWidth * e.capHeight) % U32 →
      greyVariant e.sourceFormat = true →
      e.lockOk = true → e.sliceOk = true → e.workbufOk = true → e.frameOk = true →
      e.imgWidth * e.imgHeight < U32 →
      (decode e op options).exit = ExitSite.success ∧
      (decode e op options).result = 13 ∧
      hasFlag (decode e op options) FLAG_GREY ∧
      hasFlag (decode e op options) FLAG_OPAQUE ∧
      (decode e op options).target = some PixelFormat.Y ∧
      (decode e op options).dstLen = e.imgWidth * e.imgHeight ∧
      (decode e op options).pixelBufAllocated = false ∧
      (decode e op options).surface = some e.directPixels := by
  intro e op options h1 h2 h3 h4 hcap hfmt hlock hs hw hf hsmall
  rw [decode_grey_path e op options h1 h2 h3 h4 hcap hfmt hlock]
  have hmod : (e.imgWidth * e.imgHeight) % U32 = e.imgWidth * e.imgHeight :=
    Nat.mod_eq_of_lt hsmall
  refine ⟨?_, ?_, ?_, ?_, ?_, ?_, ?_, ?_⟩ <;>
    simp [decodePost, hasFlag, hs, hw, hf, hmod, FLAG_GREY, FLAG_OPAQUE]

/-- Witness for `C9_greyscale_path` at a concrete 2×2 greyscale run. -/
theorem C9_greyscale_path_witness :
    (decode engineC9 false 0).exit = ExitSite.success ∧
    (decode engineC9 false 0).result = 13 ∧
    hasFlag (decode engineC9 false 0) FLAG_GREY ∧
    hasFlag (decode engineC9 false 0) FLAG_OPAQUE ∧
    (decode engineC9 false 0).target = some PixelFormat.Y ∧
    (decode engineC9 false 0).dstLen = engineC9.imgWidth * engineC9.imgHeight ∧
    (decode engineC9 false 0).pixelBufAllocated = false ∧
    (decode engineC9 false 0).surface = some engineC9.directPixels :=
  C9_greyscale_path engineC9 false 0 (by decide) (by decide) (by decide) (by decide)
    (by decide) (by decide) (by decide) (by decide) (by decide) (by decide)
    (by decide)

/-- Claim C10: the capacity check is the 32-bit wrap-around comparison —
a call that passes the early checks is capacity-rejected exactly when
`(width*height) mod 2^32` exceeds `(capWidth*capHeight) mod 2^32` — and
there are inputs (the `65536×65536`-into-`1×1` run) whose true pixel
count exceeds the capacity yet pass the check and decode successfully. -/
theorem C10_capacity_wraparound :
    (∀ (e : Engine) (op : Bool) (options : Nat),
      e.bufferValid = true → e.initOk = true → e.configOk = true →
      e.configValid = true →
      ((decode e op options).exit = ExitSite.capacityFail ↔
        (e.capWidth * e.capHeight) % U32 < (e.imgWidth * e.imgHeight) % U32)) ∧
    (engineC10.imgWidth * engineC10.imgHeight >
        engineC10.capWidth * engineC10.capHeight ∧
      (decode engineC10 false 0).exit = ExitSite.success ∧
      (decode engineC10 false 0).result ≠ 0) := by
  constructor
  · intro e op options h1 h2 h3 h4
    constructor
    · intro hex
      by_contra hcap
      exact decode_exit_ne_capacity e op options (Nat.not_lt.mp hcap) hex
    · intro hcap
      simp [decode, h1, h2, h3, h4, hcap, failAt]
  · decide

/-- Witness for `C10_capacity_wraparound` at the concrete 100×100 run:
the exit is the capacity rejection exactly as the 32-bit comparison
says. -/
theorem C10_capacity_wraparound_witness :
    (decode engineCap true 0).exit = ExitSite.capacityFail ↔
      (engineCap.capWidth * engineCap.capHeight) % U32 <
        (engineCap.imgWidth * engineCap.imgHeight) % U32 :=
  C10_capacity_wraparound.1 engineCap true 0 (by decide) (by decide) (by decide)
    (by decide)

/-! ## Claim C2: the premultiplier's exact arithmetic -/

/-- Claim C2, counterexample.  At the color with alpha `0x04` and one
channel at `0xBF`, the code's computation (which scales by
`0x101 * 0x101 = 0x10201`) produces channel value `3`, while the spec's
stated formula (`a16 = a * 0x10101`) produces `2`: the code does not
implement the claimed computation bit-for-bit. -/
theorem C2_counterexample :
    abgr_nonpremul_to_argb_premul 0x04BF0000 = 0x04000003 ∧
    premulSpecFormula 0x04BF0000 = 0x04000002 ∧
    abgr_nonpremul_to_argb_premul 0x04BF0000 ≠ premulSpecFormula 0x04BF0000 := by
  decide

set_option maxRecDepth 4000 in
/-- Claim C2 (amended: the fixed-point scale is `a16 = a * 0x10201`,
that is `a * (0x101 * 0x101)`, not `a * 0x10101`).  For every input the
code's premultiplier extracts the 8-bit alpha and the three channel
bytes, computes `channel' = (channel * a16 / 0xFFFF) >> 8` per channel
with `a16 = a * (0x101 * 0x101)`, and reassembles with the alpha
unchanged in the caller's byte order (swapping the two outer channels).
Moreover this rounding is exact at the extremes: at alpha `0xFF` every
channel is unchanged, and at alpha `0` every channel becomes `0`. -/
theorem C2_premultiplier_exact :
    (∀ x : Nat,
      abgr_nonpremul_to_argb_premul x =
        (alphaByte x <<< 24) |||
        (premulChannel (channelByte x 0) (alphaByte x) <<< 16) |||
        (premulChannel (channelByte x 8) (alphaByte x) <<< 8) |||
        (premulChannel (channelByte x 16) (alphaByte x) <<< 0)) ∧
    (∀ c, c < 256 → premulChannel c 0xFF = c) ∧
    (∀ c, c < 256 → premulChannel c 0 = 0) := by
  refine ⟨fun x => rfl, ?_, ?_⟩
  · decide
  · decide

/-- Witness for `C2_premultiplier_exact` at concrete channel values. -/
theorem C2_premultiplier_exact_witness :
    premulChannel 0x37 0xFF = 0x37 ∧ premulChannel 0x99 0 = 0 :=
  ⟨C2_premultiplier_exact.2.1 0x37 (by decide),
   C2_premultiplier_exact.2.2 0x99 (by decide)⟩

/-! ## Claim C5: the palette opacity flag -/

set_option maxRecDepth 4000 in
/-- Claim C5: for every 256-entry palette, `copyPalette`'s opacity flag
is true iff all 256 entries have alpha `0xFF`, the flag is returned
alongside the entry-wise premultiplied table, and the concrete palette
with exactly one entry at alpha `0xFE` yields `false`. -/
theorem C5_palette_opacity :
    (∀ pal : List Nat, pal.length = 256 →
      ((copyPalette pal).2 = true ↔ ∀ c ∈ pal, 0xFF &&& (c >>> 24) = 0xFF) ∧
      (copyPalette pal).1 = pal.map abgr_nonpremul_to_argb_premul) ∧
    (palOneFE.length = 256 ∧ (copyPalette palOneFE).2 = false) := by
  refine ⟨fun pal _ => ⟨copyPalette_snd pal, copyPalette_fst pal⟩, ?_, ?_⟩
  · decide
  · decide

set_option maxRecDepth 4000 in
/-- Witness for `C5_palette_opacity` at a concrete 256-entry palette. -/
theorem C5_palette_opacity_witness :
    (((copyPalette palOpaque).2 = true ↔
      ∀ c ∈ palOpaque, 0xFF &&& (c >>> 24) = 0xFF) ∧
    (copyPalette palOpaque).1 = palOpaque.map abgr_nonpremul_to_argb_premul) :=
  C5_palette_opacity.1 palOpaque (by simp [palOpaque])

end Pngs
